import Mathlib

/-!
Verification of the MBS MASSBUS server command-service core.

This file is a shallow embedding, over `Nat`, of the parts of the C++
sources that the specification talks about: the tape bit fiddler and the
tape command state machine (TapeDrive.cpp), the disk geometry arithmetic
(DriveType.cpp / DriveType.hpp), the disk write path (DiskDrive.cpp),
the read-only plumbing (BaseDrive.cpp / DiskDrive.cpp) and the bridge
command-wait primitive (decupe.c / DECUPE.hpp).  Machine integers are
modelled as `Nat` with explicit masks where overflow or truncation
matters; fallible external calls are modelled as explicit parameters.
-/

/-! ## Bit-packing macros (MBS.hpp, MASSBUS.h) -/

/-- MBS.hpp: `MASK18(x) = x & 0777777`. -/
def MASK18 (x : Nat) : Nat := x &&& 0o777777

/-- MBS.hpp: `RH36(x) = x & 0000000777777`. -/
def RH36 (x : Nat) : Nat := x &&& 0o777777

/-- MBS.hpp: `LH36(x) = (x & 0777777000000) >> 18`. -/
def LH36 (x : Nat) : Nat := (x &&& 0o777777000000) >>> 18

/-- MBS.hpp: `MK36(h,l) = ((h & 0777777) << 18) | (l & 0777777)`. -/
def MK36 (h l : Nat) : Nat := ((h &&& 0o777777) <<< 18) ||| (l &&& 0o777777)

/-- MASSBUS.h: `TMAM_10_COMPATIBLE = 2` (PDP-10 industry compatible mode). -/
def TMAM_10_COMPATIBLE : Nat := 2

/-- MASSBUS.h: `TMAM_10_CORE_DUMP = 3` (PDP-10 native mode). -/
def TMAM_10_CORE_DUMP : Nat := 3

/-! ## The bit fiddler (TapeDrive.cpp, CTapeDrive::Fiddle8to18 / Fiddle18to8)

The byte buffer `abIn` is modelled as a total function `Nat → Nat`; the
caller (`DoRead`) passes a buffer that extends past `cbIn` with slack
bytes, and the fiddler intentionally reads past `cbIn` when the record
length is not a multiple of the group size.  The output array `alOut`
together with the returned count `clOut` is modelled as the returned
list of halfwords (so `clOut` is the length of the result).

The loop counters are `uint32_t` in the source; the `Nat` subtraction
used here agrees with the source whenever the loop counter is a
multiple of the group size (which is the only case the claims quantify
over); for other counts the source would wrap around past zero.
-/

/-- Loop of `CTapeDrive::Fiddle8to18` for the `TMAM_10_CORE_DUMP` format
(TapeDrive.cpp lines 187-202): packs five bytes (the fifth masked to its
low nibble) into one 36-bit word per iteration and emits the two 18-bit
halves, left-right when walking forward and right-left when walking in
reverse. -/
def fiddleLoopCD (abIn : Nat → Nat) (n cbIn : Nat) (fReverse : Bool) : List Nat :=
  if h : cbIn = 0 then []
  else
    let b0 := abIn (n + 0)
    let b1 := abIn (n + 1)
    let b2 := abIn (n + 2)
    let b3 := abIn (n + 3)
    let b4 := abIn (n + 4) &&& 0o17
    let w36 := (b0 <<< 28) ||| (b1 <<< 20) ||| (b2 <<< 12) ||| (b3 <<< 4) ||| b4
    if fReverse then
      RH36 w36 :: LH36 w36 :: fiddleLoopCD abIn (n - 5) (cbIn - 5) fReverse
    else
      LH36 w36 :: RH36 w36 :: fiddleLoopCD abIn (n + 5) (cbIn - 5) fReverse
termination_by cbIn
decreasing_by all_goals exact Nat.sub_lt (Nat.pos_of_ne_zero h) (by decide)

/-- Loop of `CTapeDrive::Fiddle8to18` for the `TMAM_10_COMPATIBLE` format
(TapeDrive.cpp lines 204-216): packs four bytes into one 36-bit word with
the low four bits zero. -/
def fiddleLoopIC (abIn : Nat → Nat) (n cbIn : Nat) (fReverse : Bool) : List Nat :=
  if h : cbIn = 0 then []
  else
    let b0 := abIn (n + 0)
    let b1 := abIn (n + 1)
    let b2 := abIn (n + 2)
    let b3 := abIn (n + 3)
    let w36 := (b0 <<< 28) ||| (b1 <<< 20) ||| (b2 <<< 12) ||| (b3 <<< 4)
    if fReverse then
      RH36 w36 :: LH36 w36 :: fiddleLoopIC abIn (n - 4) (cbIn - 4) fReverse
    else
      LH36 w36 :: RH36 w36 :: fiddleLoopIC abIn (n + 4) (cbIn - 4) fReverse
termination_by cbIn
decreasing_by all_goals exact Nat.sub_lt (Nat.pos_of_ne_zero h) (by decide)

/-- `CTapeDrive::Fiddle8to18` (TapeDrive.cpp lines 139-222).  For the
core-dump format the source sets `n = ((cbIn+4)/5)*5` in reverse mode and
then `cbIn = ((cbIn*5)+4)/5` (which is the identity on `uint32_t`, not a
round-up); for the industry-compatible format it sets
`n = (cbIn+3) & ~3` and `cbIn = (cbIn+3) & ~3`, both rendered here as
`((cbIn+3)/4)*4`, the round-up to a multiple of 4.  Unsupported formats
log an error and return a zero-length conversion. -/
def Fiddle8to18 (bFormat : Nat) (abIn : Nat → Nat) (cbIn : Nat) (fReverse : Bool) : List Nat :=
  if bFormat = TMAM_10_CORE_DUMP then
    fiddleLoopCD abIn (if fReverse then ((cbIn + 4) / 5) * 5 else 0) (((cbIn * 5) + 4) / 5) fReverse
  else if bFormat = TMAM_10_COMPATIBLE then
    fiddleLoopIC abIn (if fReverse then ((cbIn + 3) / 4) * 4 else 0) (((cbIn + 3) / 4) * 4) fReverse
  else []

/-- Loop of `CTapeDrive::Fiddle18to8` for the `TMAM_10_CORE_DUMP` format
(TapeDrive.cpp lines 246-255): rebuild a 36-bit word from two 18-bit
halfwords and emit five bytes, the fifth holding the low nibble.  The
source walks `alIn` by an index `n` advancing 2 per iteration; here the
list is consumed two elements at a time, which is the same access
pattern. -/
def fiddleLoop18to8CD (alIn : List Nat) (clIn : Nat) : List Nat :=
  if h : clIn = 0 then []
  else
    let w36 := MK36 (alIn.getD 0 0) (alIn.getD 1 0)
    ((w36 >>> 28) &&& 0xFF) :: ((w36 >>> 20) &&& 0xFF) :: ((w36 >>> 12) &&& 0xFF) ::
      ((w36 >>> 4) &&& 0xFF) :: (w36 &&& 0x0F) :: fiddleLoop18to8CD (alIn.drop 2) (clIn - 2)
termination_by clIn
decreasing_by exact Nat.sub_lt (Nat.pos_of_ne_zero h) (by decide)

/-- Loop of `CTapeDrive::Fiddle18to8` for the `TMAM_10_COMPATIBLE` format
(TapeDrive.cpp lines 256-264): as the core-dump loop but emitting four
bytes per 36-bit word. -/
def fiddleLoop18to8IC (alIn : List Nat) (clIn : Nat) : List Nat :=
  if h : clIn = 0 then []
  else
    let w36 := MK36 (alIn.getD 0 0) (alIn.getD 1 0)
    ((w36 >>> 28) &&& 0xFF) :: ((w36 >>> 20) &&& 0xFF) :: ((w36 >>> 12) &&& 0xFF) ::
      ((w36 >>> 4) &&& 0xFF) :: fiddleLoop18to8IC (alIn.drop 2) (clIn - 2)
termination_by clIn
decreasing_by exact Nat.sub_lt (Nat.pos_of_ne_zero h) (by decide)

/-- `CTapeDrive::Fiddle18to8` (TapeDrive.cpp lines 225-269).  `clIn` is in
halfwords; the source asserts `(clIn & 1) == 0` (claims about this
function only use even counts, where the `Nat` loop counter agrees with
the `uint32_t` one). -/
def Fiddle18to8 (bFormat : Nat) (alIn : List Nat) (clIn : Nat) : List Nat :=
  if bFormat = TMAM_10_CORE_DUMP then
    fiddleLoop18to8CD alIn clIn
  else if bFormat = TMAM_10_COMPATIBLE then
    fiddleLoop18to8IC alIn clIn
  else []

/-- `CTapeDrive::DoWrite` (TapeDrive.cpp line 849): the halfword count
handed to the FPGA and to `Fiddle18to8`,
`clRecord = (bFormat==TMAM_10_COMPATIBLE) ? (lByteCount*2/4) : (lByteCount*2/5)`. -/
def writeHalfwordCount (bFormat lByteCount : Nat) : Nat :=
  if bFormat = TMAM_10_COMPATIBLE then lByteCount * 2 / 4 else lByteCount * 2 / 5

/-- Spec section 8, invariant 2: the 10-core-dump round trip reproduces the
buffer except that in every 5th byte only the low 4 bits survive. -/
def maskFifth : List Nat → List Nat
  | b0 :: b1 :: b2 :: b3 :: b4 :: rest => b0 :: b1 :: b2 :: b3 :: (b4 &&& 0xF) :: maskFifth rest
  | l => l

/-! ## Disk geometry (DriveType.hpp / DriveType.cpp)

The registry rows are the static `CDiskType` instances from
DriveType.cpp lines 46-51.  The name string and the MASSBUS type code do
not enter the geometry arithmetic and are recorded in comments only.
-/

/-- CDiskType: sectors-per-track in both encodings, heads and cylinders
(DriveType.hpp lines 174-180). -/
structure CDiskType where
  nSectors16 : Nat
  nSectors18 : Nat
  nHeads : Nat
  nCylinders : Nat
deriving DecidableEq

/-- DriveType.cpp line 46: RP04, MASSBUS type 020, RP controller. -/
def RP04type : CDiskType := ⟨22, 20, 19, 411⟩

/-- DriveType.cpp line 47: RP06, MASSBUS type 022, RP controller. -/
def RP06type : CDiskType := ⟨22, 20, 19, 815⟩

/-- DriveType.cpp line 48: RP07, MASSBUS type 042, RM controller. -/
def RP07type : CDiskType := ⟨50, 43, 32, 632⟩

/-- DriveType.cpp line 49: RM03, MASSBUS type 024, RM controller. -/
def RM03type : CDiskType := ⟨32, 30, 5, 823⟩

/-- DriveType.cpp line 50: RM05, MASSBUS type 027, RM controller. -/
def RM05type : CDiskType := ⟨32, 30, 19, 823⟩

/-- DriveType.cpp line 51: RM80, MASSBUS type 026, RM controller. -/
def RM80type : CDiskType := ⟨31, 30, 14, 559⟩

/-- The disk rows of `m_apDriveTypes` (DriveType.cpp lines 55-60). -/
def diskTypes : List CDiskType := [RP04type, RP06type, RP07type, RM03type, RM05type, RM80type]

/-- CDiskType::GetSectors (DriveType.hpp line 162). -/
def GetSectors (t : CDiskType) (f18Bit : Bool) : Nat :=
  if f18Bit then t.nSectors18 else t.nSectors16

/-- CDiskType::IsValidCHS (DriveType.cpp lines 127-135): conjunction of
IsValidCylinder, IsValidHead and IsValidSector. -/
def IsValidCHS (t : CDiskType) (nCylinder nHead nSector : Nat) (f18Bit : Bool) : Prop :=
  nCylinder < t.nCylinders ∧ nHead < t.nHeads ∧ nSector < GetSectors t f18Bit

instance (t : CDiskType) (c h s : Nat) (f : Bool) : Decidable (IsValidCHS t c h s f) := by
  unfold IsValidCHS
  infer_instance

/-- DriveType.hpp line 172: `INVALID_SECTOR = 0xFFFFFFFF`. -/
def INVALID_SECTOR : Nat := 0xFFFFFFFF

/-- CDiskType::CHStoLBA (DriveType.cpp lines 138-147). -/
def CHStoLBA (t : CDiskType) (nCylinder nHead nSector : Nat) (f18Bit : Bool) : Nat :=
  if IsValidCHS t nCylinder nHead nSector f18Bit then
    (nCylinder * t.nHeads + nHead) * GetSectors t f18Bit + nSector
  else INVALID_SECTOR

/-- CDiskType::LBAtoCHS (DriveType.cpp lines 149-160), returning
(cylinder, head, sector).  The cylinder is a `uint16_t` in the source,
hence the mod 65536; head and sector are `uint8_t` but their values are
already below the (at most 8-bit) head and sector counts.  Note the
source checks the result with `IsValidCHS(nCylinder, nHead, nSector)`,
which uses the default `f18Bit = false`, and on failure overwrites the
triple with `LOWORD`/`LOBYTE` of `INVALID_SECTOR`. -/
def LBAtoCHS (t : CDiskType) (lLBA : Nat) (f18Bit : Bool) : Nat × Nat × Nat :=
  let nSector := lLBA % GetSectors t f18Bit
  let l2 := lLBA / GetSectors t f18Bit
  let nHead := l2 % t.nHeads
  let nCylinder := (l2 / t.nHeads) % 65536
  if ¬ IsValidCHS t nCylinder nHead nSector false then (0xFFFF, 0xFF, 0xFF)
  else (nCylinder, nHead, nSector)

/-! ## The bridge command wait (decupe.c, CDECUPE::WaitCommand)

`CDECUPE::WaitCommand` interacts with the bridge through the command
FIFO slot (two destructive reads at most), `EnableInterrupt` and
`WaitInterrupt`.  Those externals are modelled as explicit parameters:
the word each FIFO read would deliver, whether enabling interrupts
succeeds, and the PLX wait status. -/

/-- UPELIB `ISSET(x, f)` macro: the bits of `f` are set in `x`. -/
def ISSET (x f : Nat) : Bool := x &&& f ≠ 0

/-- DECUPE.hpp line 100: `VALID = 0x80000000`, the validity bit of command
and data FIFO words. -/
def VALID : Nat := 0x80000000

/-- CDECUPE::IsCommandValid (DECUPE.hpp line 122). -/
def IsCommandValid (l : Nat) : Bool := ISSET l VALID

/-- DECUPE.hpp line 189: `TIMEOUT = 0x00000000`. -/
def CDECUPE_TIMEOUT : Nat := 0x00000000

/-- DECUPE.hpp line 189: `ERROR = 0x0FFFFFFF`. -/
def CDECUPE_ERROR : Nat := 0x0FFFFFFF

/-- Result statuses of the PLX wait primitives used by WaitCommand. -/
inductive PlxStatus where
  | apiSuccess
  | apiWaitTimeout
  | apiWaitCanceled
  | apiFailed
deriving DecidableEq

/-- CDECUPE::WaitCommand (decupe.c lines 176-227).  `fOffline` is
`IsOffline()`; `cmd1` is the word the first read of the command FIFO
slot yields; `fEnableOk` is whether `EnableInterrupt()` returns
`ApiSuccess`; `waitRet` is the `WaitInterrupt` status; `cmd2` is the
word the re-read of the FIFO yields.  The offline branch sleeps for the
timeout (a pure delay, not modelled) and returns TIMEOUT. -/
def WaitCommand (fOffline : Bool) (cmd1 : Nat) (fEnableOk : Bool)
    (waitRet : PlxStatus) (cmd2 : Nat) : Nat :=
  if fOffline then CDECUPE_TIMEOUT
  else if IsCommandValid cmd1 then cmd1
  else if ¬ fEnableOk then CDECUPE_ERROR
  else if waitRet = PlxStatus.apiWaitTimeout ∨ waitRet = PlxStatus.apiWaitCanceled then
    CDECUPE_TIMEOUT
  else if waitRet ≠ PlxStatus.apiSuccess then CDECUPE_ERROR
  else if ¬ IsCommandValid cmd2 then CDECUPE_TIMEOUT
  else cmd2

/-! ## Tape formatter registers and interrupt codes (MASSBUS.h) -/

/-- MASSBUS.h line 120: `TMDIR = 001`, data transfer interrupt register. -/
def TMDIR : Nat := 0o1

/-- MASSBUS.h line 121: `TMTCR = 002`, tape control register. -/
def TMTCR : Nat := 0o2

/-- MASSBUS.h line 124: `TMBCR = 005`, byte count register. -/
def TMBCR : Nat := 0o5

/-- MASSBUS.h line 130: `TMMIR = 013`, motion interrupt register. -/
def TMMIR : Nat := 0o13

/-- MASSBUS.h line 131: `TMMCR0 = 014`, motion control register, unit 0. -/
def TMMCR0 : Nat := 0o14

/-- MASSBUS.h line 180: `TMDIR_M_FC = 0176000`. -/
def TMDIR_M_FC : Nat := 0o176000

/-- MASSBUS.h line 181: `TMDIR_V_FC = 10`. -/
def TMDIR_V_FC : Nat := 10

/-- MASSBUS.h line 182: `TMDIR_DPR = 0000400`. -/
def TMDIR_DPR : Nat := 0o400

/-- MASSBUS.h line 183: `TMDIR_M_IC = 0000077`. -/
def TMDIR_M_IC : Nat := 0o77

/-- MASSBUS.h lines 185-190: TMMIR field masks and shifts. -/
def TMMIR_M_FC : Nat := 0o176000

/-- MASSBUS.h line 186: `TMMIR_V_FC = 10`. -/
def TMMIR_V_FC : Nat := 10

/-- MASSBUS.h line 187: `TMMIR_M_UNIT = 0001400`. -/
def TMMIR_M_UNIT : Nat := 0o1400

/-- MASSBUS.h line 188: `TMMIR_V_UNIT = 8`. -/
def TMMIR_V_UNIT : Nat := 8

/-- MASSBUS.h line 189: `TMMIR_M_IC = 0000077`. -/
def TMMIR_M_IC : Nat := 0o77

/-- MASSBUS.h line 191: `MK_TMDIR(ic,fc)`; the `uint16_t` cast is vacuous
because both masked fields lie below bit 16. -/
def MK_TMDIR (ic fc : Nat) : Nat :=
  ((fc <<< TMDIR_V_FC) &&& TMDIR_M_FC) ||| (ic &&& TMDIR_M_IC)

/-- MASSBUS.h line 192: `MK_TMMIR(ic,u,fc)`. -/
def MK_TMMIR (ic u fc : Nat) : Nat :=
  ((fc <<< TMMIR_V_FC) &&& TMMIR_M_FC) ||| (ic &&& TMMIR_M_IC) |||
    ((u <<< TMMIR_V_UNIT) &&& TMMIR_M_UNIT)

/-- MASSBUS.h lines 200-225: tape interrupt codes (the ones this model
uses). -/
def TMIC_DONE : Nat := 0o1

/-- MASSBUS.h line 201: `TMIC_TAPE_MARK = 002`. -/
def TMIC_TAPE_MARK : Nat := 0o2

/-- MASSBUS.h line 202: `TMIC_BOT = 003`. -/
def TMIC_BOT : Nat := 0o3

/-- MASSBUS.h line 203: `TMIC_EOT = 004`. -/
def TMIC_EOT : Nat := 0o4

/-- MASSBUS.h line 207: `TMIC_FILE_PROTECT = 010`. -/
def TMIC_FILE_PROTECT : Nat := 0o10

/-- MASSBUS.h line 210: `TMIC_OFFLINE = 013`. -/
def TMIC_OFFLINE : Nat := 0o13

/-- MASSBUS.h line 214: `TMIC_LONG_RECORD = 020`. -/
def TMIC_LONG_RECORD : Nat := 0o20

/-- MASSBUS.h line 215: `TMIC_SHORT_RECORD = 021`. -/
def TMIC_SHORT_RECORD : Nat := 0o21

/-- MASSBUS.h line 218: `TMIC_UNREADABLE = 024`. -/
def TMIC_UNREADABLE : Nat := 0o24

/-- MASSBUS.h line 221: `TMIC_BAD_TAPE = 027`. -/
def TMIC_BAD_TAPE : Nat := 0o27

/-- MASSBUS.h line 222: `TMIC_TM_FAULT_A = 030`. -/
def TMIC_TM_FAULT_A : Nat := 0o30

/-- MASSBUS.h lines 252-261: TMTCR subfield masks and shifts. -/
def TMTCR_M_FORMAT : Nat := 0o70000

/-- MASSBUS.h line 255: `TMTCR_V_FORMAT = 12`. -/
def TMTCR_V_FORMAT : Nat := 12

/-- MASSBUS.h line 256: `TMTCR_M_SKIP_COUNT = 0007400`. -/
def TMTCR_M_SKIP_COUNT : Nat := 0o7400

/-- MASSBUS.h line 257: `TMTCR_V_SKIP_COUNT = 8`. -/
def TMTCR_V_SKIP_COUNT : Nat := 8

/-- MASSBUS.h line 258: `TMTCR_M_REC_COUNT = 0000374`. -/
def TMTCR_M_REC_COUNT : Nat := 0o374

/-- MASSBUS.h line 259: `TMTCR_V_REC_COUNT = 2`. -/
def TMTCR_V_REC_COUNT : Nat := 2

/-- MASSBUS.h line 260: `TMTCR_M_CMD_ADDR = 0000003`. -/
def TMTCR_M_CMD_ADDR : Nat := 0o3

/-- MASSBUS.h lines 147-174: tape function codes used by the transfer
dispatcher. -/
def TMCMD_RD_FWD : Nat := 0o71

/-- MASSBUS.h line 174: `TMCMD_RD_REV = 077`. -/
def TMCMD_RD_REV : Nat := 0o77

/-- MASSBUS.h line 170: `TMCMD_WRT_PE = 061`. -/
def TMCMD_WRT_PE : Nat := 0o61

/-- MASSBUS.h line 171: `TMCMD_WRT_GCR = 063`. -/
def TMCMD_WRT_GCR : Nat := 0o63

/-- MASSBUS.h line 173: `TMCMD_RD_EXSNS = 073`. -/
def TMCMD_RD_EXSNS : Nat := 0o73

/-- UPELIB `LOWORD` macro: low 16 bits. -/
def LOWORD (x : Nat) : Nat := x &&& 0xFFFF

/-! ## Tape command state machine (TapeDrive.cpp)

The tape handlers interact with the world through a small set of
primitives: MASSBUS register writes and bit-clears via the bridge, data
FIFO reads/writes, the null transfer, and the tape image file.  Each
handler is modelled as a function from its inputs (with the outcomes of
the external image/FIFO calls passed as parameters) to the list of
primitive effects it performs, in program order. -/

/-- One primitive effect of a tape or disk command handler, in program
order.  `setMotionCount n slave` stands for `SetMotionCount` writing
`MKWORD(n, LOBYTE(TMMCRslave))`, i.e. the count byte of the motion
command register becomes `n`.  `imgWriteSector`, `imgWriteRecord` and
`imgTruncate` are the only effects that mutate the image file. -/
inductive Ev where
  | writeMBR (reg val : Nat)
  | clearBitMBR (reg mask : Nat)
  | setMotionCount (nCount nSlave : Nat)
  | writeData (al : List Nat) (fException : Bool)
  | readData (cl : Nat)
  | emptyTransfer (fException : Bool)
  | imgWriteRecord (ab : List Nat)
  | imgTruncate
  | imgWriteSector (lba : Nat) (data : List Nat)
  | spinDown
  | callDoRead (fReverse : Bool) (bFormat lByteCount : Nat)
  | callDoWrite (bFormat lByteCount : Nat)
  | callDoReadExtendedSense
deriving DecidableEq

/-- CTapeDrive::SetDataInt (TapeDrive.cpp lines 343-357): writes
`MK_TMDIR(nCode,nFailure) | (nSlave==0 ? TMDIR_DPR : 0)` to TMDIR. -/
def setDataIntEv (nCode nSlave nFailure : Nat) : Ev :=
  Ev.writeMBR TMDIR (MK_TMDIR nCode nFailure ||| (if nSlave = 0 then TMDIR_DPR else 0))

/-- CTapeDrive::SetMotionInt (TapeDrive.cpp lines 321-340): writes
`MK_TMMIR(nCode,nSlave,nFailure)` to TMMIR. -/
def setMotionIntEv (nCode nSlave nFailure : Nat) : Ev :=
  Ev.writeMBR TMMIR (MK_TMMIR nCode nSlave nFailure)

/-- CTapeDrive::ClearMotionGO (TapeDrive.cpp lines 300-318): clears bit 0
of TMMCR0+nSlave. -/
def clearMotionGOEv (nSlave : Nat) : Ev :=
  Ev.clearBitMBR (TMMCR0 + nSlave) 1

/-- CTapeDrive::CheckOnline (TapeDrive.cpp lines 500-520): returns whether
the drive is online, with the side effects of the offline branch. -/
def CheckOnline (fOnline : Bool) (fMotion : Bool) : Bool × List Ev :=
  if fOnline then (true, [])
  else if fMotion then (false, [clearMotionGOEv 0, setMotionIntEv TMIC_OFFLINE 0 0])
  else (false, [setDataIntEv TMIC_OFFLINE 0 0, Ev.emptyTransfer true])

/-- CTapeDrive::CheckWritable (TapeDrive.cpp lines 523-545). -/
def CheckWritable (fOnline fReadOnly : Bool) (fMotion : Bool) : Bool × List Ev :=
  if ¬ (CheckOnline fOnline fMotion).1 then (CheckOnline fOnline fMotion)
  else if ¬ fReadOnly then (true, [])
  else if fMotion then (false, [clearMotionGOEv 0, setMotionIntEv TMIC_FILE_PROTECT 0 0])
  else (false, [setDataIntEv TMIC_FILE_PROTECT 0 0, Ev.emptyTransfer true])

/-- Outcome of `CTapeImageFile::ReadForwardRecord` as tested by `DoRead`:
a byte count `>= 0` (the record placed in `m_abBuffer`), or one of the
distinct negative codes `TAPEMARK`, `EOTBOT`, or any other error value
(`BADTAPE` etc.), whose numeric values live in the external UPELIB
ImageFile.hpp and are only compared against here. -/
inductive ReadRecordResult where
  | bytes (ab : List Nat)
  | tapemark
  | eotbot
  | badOther
deriving DecidableEq

/-- CTapeDrive::DoRead (TapeDrive.cpp lines 739-815).  `fBOT` is
`GetImage()->IsBOT()`; `rr` is the `ReadForwardRecord` outcome.  `.bytes
ab` with `ab = []` corresponds to `cbRecord = 0`, which the source
(testing `cbRecord <= 0`) treats as the generic tape-error case. -/
def DoRead (fOnline : Bool) (fReverse : Bool) (bFormat : Nat) (lByteCount : Nat)
    (fBOT : Bool) (rr : ReadRecordResult) : List Ev :=
  if ¬ (CheckOnline fOnline false).1 then (CheckOnline fOnline false).2
  else if fReverse && fBOT then [setDataIntEv TMIC_BOT 0 0, Ev.emptyTransfer true]
  else
    match rr with
    | ReadRecordResult.tapemark =>
        [Ev.writeMBR TMBCR 0, setDataIntEv TMIC_TAPE_MARK 0 0, Ev.emptyTransfer true]
    | ReadRecordResult.eotbot =>
        [Ev.writeMBR TMBCR 0, setDataIntEv TMIC_EOT 0 0, Ev.emptyTransfer true]
    | ReadRecordResult.badOther =>
        [Ev.writeMBR TMBCR 0, setDataIntEv TMIC_UNREADABLE 0 1, Ev.emptyTransfer true]
    | ReadRecordResult.bytes ab =>
        if ab.length = 0 then
          [Ev.writeMBR TMBCR 0, setDataIntEv TMIC_UNREADABLE 0 1, Ev.emptyTransfer true]
        else
          [Ev.clearBitMBR TMTCR TMTCR_M_REC_COUNT,
           Ev.writeMBR TMBCR (LOWORD ab.length),
           setDataIntEv
             (if ab.length < lByteCount then TMIC_SHORT_RECORD
              else if lByteCount < ab.length then TMIC_LONG_RECORD
              else TMIC_DONE) 0 0,
           Ev.writeData (Fiddle8to18 bFormat (fun i => ab.getD i 0) ab.length fReverse)
             (decide (ab.length ≠ lByteCount))]

/-- CTapeDrive::DoWrite (TapeDrive.cpp lines 842-864).  `fReadOk` is the
result of `m_UPE.ReadData`; `alData` are the halfwords it delivered. -/
def DoWrite (fOnline fReadOnly : Bool) (bFormat : Nat) (lByteCount : Nat)
    (fReadOk : Bool) (alData : List Nat) : List Ev :=
  if ¬ (CheckWritable fOnline fReadOnly false).1 then (CheckWritable fOnline fReadOnly false).2
  else
    [Ev.clearBitMBR TMTCR TMTCR_M_REC_COUNT,
     setDataIntEv TMIC_DONE 0 0,
     Ev.readData (writeHalfwordCount bFormat lByteCount)] ++
      (if fReadOk then
        [Ev.imgWriteRecord
          (Fiddle18to8 bFormat alData (writeHalfwordCount bFormat lByteCount))]
       else [])

/-- CTapeDrive::DoWriteGap (TapeDrive.cpp lines 685-703): the motion
flavoured write command (truncates the image, count zeroed on success). -/
def DoWriteGap (fOnline fReadOnly : Bool) : List Ev :=
  if ¬ (CheckWritable fOnline fReadOnly true).1 then (CheckWritable fOnline fReadOnly true).2
  else [Ev.imgTruncate, Ev.setMotionCount 0 0, clearMotionGOEv 0, setMotionIntEv TMIC_DONE 0 0]

/-- Outcome of one `CTapeImageFile::Space{Forward,Reverse}{Record,File}`
call as tested by `DoSpace`: a positive record length (`ok`) or one of
the distinct non-positive codes `TAPEMARK`, `EOTBOT`, `BADTAPE` from the
external UPELIB ImageFile.hpp, only compared against here. -/
inductive SpaceRet where
  | ok
  | tapemark
  | eotbot
  | badtape
deriving DecidableEq

/-- The do-while loop of CTapeDrive::DoSpace (TapeDrive.cpp lines 644-650)
over an abstract space primitive `step`: run the primitive, decrement the
count if the primitive succeeded and the count is positive, and loop
while the primitive succeeded and the count is still positive.  The
match on `nCount` renders exactly those two tests: with count 0 or 1 the
loop body runs once and exits (count 0 stays 0, count 1 decrements to
0); with a larger count a successful step decrements and continues.
Returns (final count, final image state, last primitive outcome). -/
def doSpaceLoop {σ : Type} (step : σ → σ × SpaceRet) (nCount : Nat) (st : σ) :
    Nat × σ × SpaceRet :=
  let p := step st
  if p.2 = SpaceRet.ok then
    match nCount with
    | 0 => (0, p.1, p.2)
    | 1 => (0, p.1, p.2)
    | n + 2 => doSpaceLoop step (n + 1) p.1
  else (nCount, p.1, p.2)

/-- CTapeDrive::DoSpace (TapeDrive.cpp lines 627-660).  The choice among
the four image space primitives (forward/reverse, record/file) is the
`step` parameter; `fReverse` still selects the BOT-versus-EOT interrupt.
Returns the final image state and the effect list. -/
def DoSpace {σ : Type} (step : σ → σ × SpaceRet) (fOnline : Bool) (st : σ)
    (nCount : Nat) (fReverse : Bool) : σ × List Ev :=
  if ¬ (CheckOnline fOnline true).1 then (st, (CheckOnline fOnline true).2)
  else
    let r := doSpaceLoop step nCount st
    (r.2.1,
     [Ev.setMotionCount r.1 0, clearMotionGOEv 0,
      setMotionIntEv
        (if r.2.2 = SpaceRet.badtape then TMIC_BAD_TAPE
         else if r.2.2 = SpaceRet.tapemark then TMIC_TAPE_MARK
         else if r.2.2 = SpaceRet.eotbot then (if fReverse then TMIC_BOT else TMIC_EOT)
         else TMIC_DONE) 0 0])

/-- CTapeDrive::DoMotionCommand (TapeDrive.cpp line 889): for slave 0 a
repeat count of 0 is treated as 1 before dispatching. -/
def motionRepeatCount (bCount : Nat) : Nat := if bCount = 0 then 1 else bCount

/-- Modelled from the spec: one entry of a simh ".tap" container, either a
data record (with its byte length) or a tape mark (zero-length prefix);
end of file represents the end of tape (spec section 6, container file
formats).  The CTapeImageFile class itself lives in the external UPELIB. -/
inductive TapeEntry where
  | data (len : Nat)
  | mark
deriving DecidableEq

/-- Modelled from the spec: the tape image state, the entry sequence plus
the current position (records and marks before `pos` have been passed). -/
structure TapeImage where
  entries : List TapeEntry
  pos : Nat
deriving DecidableEq

/-- Modelled from the spec: `CTapeImageFile::SpaceForwardRecord` skips the
next entry; it reports a tape mark (positioning just after it), the end
of tape when no entry remains, and otherwise success (spec sections 4.4
and 6; scenario S5 fixes the stop-just-after-the-mark behaviour). -/
def SpaceForwardRecord (t : TapeImage) : TapeImage × SpaceRet :=
  if h : t.pos < t.entries.length then
    match t.entries.get ⟨t.pos, h⟩ with
    | TapeEntry.mark => (⟨t.entries, t.pos + 1⟩, SpaceRet.tapemark)
    | TapeEntry.data _ => (⟨t.entries, t.pos + 1⟩, SpaceRet.ok)
  else (t, SpaceRet.eotbot)

/-- CTapeDrive::DoTransferCommand (TapeDrive.cpp lines 911-960): decode
TMTCR and TMBCR, reject unsupported requests with TM_FAULT_A plus one
empty exception transfer, otherwise dispatch; `nBCR` is the TMBCR
contents (`MKLONG(0, ReadMBR(TMBCR))`), and a byte count of 0 is read as
65536. -/
def DoTransferCommand (nTCR nBCR : Nat) (bFunction : Nat) : List Ev :=
  let bFormat := (nTCR &&& TMTCR_M_FORMAT) >>> TMTCR_V_FORMAT
  let bSkipCount := (nTCR &&& TMTCR_M_SKIP_COUNT) >>> TMTCR_V_SKIP_COUNT
  let bRecordCount := (nTCR &&& TMTCR_M_REC_COUNT) >>> TMTCR_V_REC_COUNT
  let bSlave := nTCR &&& TMTCR_M_CMD_ADDR
  let lByteCount := if LOWORD nBCR = 0 then 65536 else LOWORD nBCR
  let errret : List Ev := [setDataIntEv TMIC_TM_FAULT_A 0 0, Ev.emptyTransfer true]
  if bSlave ≠ 0 then errret
  else if bFormat ≠ TMAM_10_COMPATIBLE ∧ bFormat ≠ TMAM_10_CORE_DUMP then errret
  else if bSkipCount ≠ 0 then errret
  else if bRecordCount > 1 then errret
  else if bFunction = TMCMD_RD_FWD then [Ev.callDoRead false bFormat lByteCount]
  else if bFunction = TMCMD_RD_REV then [Ev.callDoRead true bFormat lByteCount]
  else if bFunction = TMCMD_WRT_PE then [Ev.callDoWrite bFormat lByteCount]
  else if bFunction = TMCMD_WRT_GCR then [Ev.callDoWrite bFormat lByteCount]
  else if bFunction = TMCMD_RD_EXSNS then [Ev.callDoReadExtendedSense]
  else errret

/-! ## Disk write path and read-only plumbing (DiskDrive.cpp, BaseDrive.cpp) -/

/-- CDiskDrive::WriteSector16 (DiskDrive.cpp lines 301-320): the low 16
bits of each longword are kept. -/
def WriteSector16pack (alData16 : List Nat) : List Nat := alData16.map LOWORD

/-- CDiskDrive::WriteSector18 (DiskDrive.cpp lines 282-298): consecutive
halfword pairs are packed with MK36. -/
def WriteSector18pack : List Nat → List Nat
  | h2 :: l2 :: rest => MK36 h2 l2 :: WriteSector18pack rest
  | _ => []

/-- CDiskDrive::DoWrite (DiskDrive.cpp lines 370-408).  `lLBA` is the
value of `GetDesiredLBA()`; `fReadOk` is the `m_UPE.ReadData` outcome,
`alSector` the 256 halfwords it delivered; `fWriteOk` is the
`WriteSector` outcome.  Every failure path ends in `SpinDown()` (drive
offline). -/
def CDiskDrive_DoWrite (lLBA : Nat) (fReadOk fReadOnly f18Bit : Bool)
    (alSector : List Nat) (fWriteOk : Bool) : List Ev :=
  if lLBA = INVALID_SECTOR then [Ev.spinDown]
  else
    Ev.readData 256 ::
      (if ¬ fReadOk then [Ev.spinDown]
       else if fReadOnly then [Ev.spinDown]
       else
         Ev.imgWriteSector lLBA
             (if f18Bit then WriteSector18pack alSector else WriteSector16pack alSector) ::
           (if fWriteOk then [] else [Ev.spinDown]))

/-- The per-drive state touched by the SetReadOnly/Attach paths: the
member flag `m_fReadOnly`, the online flag, and the 16-bit RPDS drive
status register. -/
structure DriveState where
  fReadOnly : Bool
  fOnline : Bool
  rpds : Nat
deriving DecidableEq

/-- MASSBUS.h line 88: `RPDS_WLK = 0004000`, the write-locked status bit. -/
def RPDS_WLK : Nat := 0o4000

/-- CBaseDrive::SetReadOnly (BaseDrive.cpp lines 142-155): returns early
when the flag already equals the argument; the other branch only logs.
Neither branch assigns `m_fReadOnly` or touches any register. -/
def CBaseDrive_SetReadOnly (s : DriveState) (fReadOnly : Bool) : DriveState :=
  if s.fReadOnly = fReadOnly then s else s

/-- CDiskDrive::SetReadOnly (DiskDrive.cpp lines 154-165): calls the base
method, then tests `IsReadOnly()` (the member flag, which the base method
left unchanged) and mirrors that value into the RPDS WLK bit and back
into the member flag.  `ClearBitMBR` ands the 16-bit register value with
the 16-bit complement of the mask. -/
def CDiskDrive_SetReadOnly (s : DriveState) (fReadOnly : Bool) : DriveState :=
  let s1 := CBaseDrive_SetReadOnly s fReadOnly
  if s1.fReadOnly then
    { s1 with rpds := s1.rpds ||| RPDS_WLK, fReadOnly := true }
  else
    { s1 with rpds := s1.rpds &&& (0xFFFF ^^^ RPDS_WLK), fReadOnly := false }

/-- CBaseDrive::Attach (BaseDrive.cpp lines 99-125): once the image file
opens, the read-only flag is initialised from the actual image file
state (`m_fReadOnly = m_pImage->IsReadOnly()`), not from the caller's
argument, and the drive is left offline.  `fImageReadOnly` is
`m_pImage->IsReadOnly()` after the open. -/
def CBaseDrive_Attach (s : DriveState) (fImageReadOnly : Bool) : DriveState :=
  { s with fReadOnly := fImageReadOnly, fOnline := false }


/-! ## Helper lemmas: 36-bit packing arithmetic -/

theorem and_shl_shr (w m k : Nat) : (w &&& (m <<< k)) >>> k = (w >>> k) &&& m := by
  apply Nat.eq_of_testBit_eq
  intro i
  simp [Nat.testBit_shiftLeft, Nat.add_sub_cancel_left, Nat.le_add_right]

theorem LH36_eq (w : Nat) : LH36 w = w / 262144 % 262144 := by
  have h1 : (0o777777000000 : Nat) = (262143 : Nat) <<< 18 := by decide
  have h2 : (262143 : Nat) = 2 ^ 18 - 1 := by norm_num
  rw [LH36, h1, and_shl_shr, h2, Nat.and_pow_two_sub_one_eq_mod, Nat.shiftRight_eq_div_pow]

theorem RH36_eq (w : Nat) : RH36 w = w % 262144 := by
  have h2 : (0o777777 : Nat) = 2 ^ 18 - 1 := by norm_num
  rw [RH36, h2, Nat.and_pow_two_sub_one_eq_mod]

theorem or_add_aux {i b : Nat} (hb : b < 2 ^ i) (a : Nat) : a * 2 ^ i ||| b = a * 2 ^ i + b := by
  rw [Nat.mul_comm, ← Nat.mul_add_lt_is_or hb a]

theorem or_add_lit {p b : Nat} (hp : ∃ i : Nat, p = 2 ^ i) (hb : b < p) (a : Nat) :
    a * p ||| b = a * p + b := by
  obtain ⟨i, rfl⟩ := hp
  exact or_add_aux hb a

theorem MK36_eq (h l : Nat) : MK36 h l = (h % 262144) * 262144 + l % 262144 := by
  have h2 : (0o777777 : Nat) = 2 ^ 18 - 1 := by norm_num
  rw [MK36, h2, Nat.and_pow_two_sub_one_eq_mod, Nat.and_pow_two_sub_one_eq_mod,
    Nat.shiftLeft_eq, or_add_aux (Nat.mod_lt _ (by norm_num)) (h % 2 ^ 18)]
  norm_num

theorem and255_eq (x : Nat) : x &&& 255 = x % 256 := by
  have := Nat.and_pow_two_sub_one_eq_mod x 8
  norm_num at this
  exact this

theorem and15_eq (x : Nat) : x &&& 15 = x % 16 := by
  have := Nat.and_pow_two_sub_one_eq_mod x 4
  norm_num at this
  exact this

theorem w36_or_eq (b0 b1 b2 b3 b4 : Nat) (h1 : b1 < 256) (h2 : b2 < 256) (h3 : b3 < 256)
    (h4 : b4 < 16) :
    (b0 <<< 28) ||| (b1 <<< 20) ||| (b2 <<< 12) ||| (b3 <<< 4) ||| b4
      = b0 * 268435456 + b1 * 1048576 + b2 * 4096 + b3 * 16 + b4 := by
  rw [Nat.shiftLeft_eq, Nat.shiftLeft_eq, Nat.shiftLeft_eq, Nat.shiftLeft_eq]
  norm_num
  rw [Nat.or_assoc, Nat.or_assoc, Nat.or_assoc]
  rw [or_add_lit ⟨4, by norm_num⟩ h4 b3]
  rw [or_add_lit ⟨12, by norm_num⟩ (by omega) b2]
  rw [or_add_lit ⟨20, by norm_num⟩ (by omega) b1]
  rw [or_add_lit ⟨28, by norm_num⟩ (by omega) b0]
  ring

theorem w36_or_eq4 (b0 b1 b2 b3 : Nat) (h1 : b1 < 256) (h2 : b2 < 256) (h3 : b3 < 256) :
    (b0 <<< 28) ||| (b1 <<< 20) ||| (b2 <<< 12) ||| (b3 <<< 4)
      = b0 * 268435456 + b1 * 1048576 + b2 * 4096 + b3 * 16 := by
  have := w36_or_eq b0 b1 b2 b3 0 h1 h2 h3 (by norm_num)
  simpa using this

theorem mk_lh_rh (w : Nat) (hw : w < 68719476736) : MK36 (LH36 w) (RH36 w) = w := by
  rw [MK36_eq, LH36_eq, RH36_eq]
  omega

theorem fiddleLoopIC_fwd_shift (ab ab2 : Nat → Nat) :
    ∀ cb n m, (∀ j, ab (n + j) = ab2 (m + j)) →
      fiddleLoopIC ab n cb false = fiddleLoopIC ab2 m cb false := by
  intro cb
  induction cb using Nat.strong_induction_on with
  | _ cb ih =>
    intro n m hj
    by_cases h : cb = 0
    · subst h
      conv_lhs => rw [fiddleLoopIC]
      conv_rhs => rw [fiddleLoopIC]
      simp
    · conv_lhs => rw [fiddleLoopIC]
      conv_rhs => rw [fiddleLoopIC]
      have e0 : ab n = ab2 m := by simpa using hj 0
      have e1 := hj 1
      have e2 := hj 2
      have e3 := hj 3
      have erec := ih (cb - 4) (Nat.sub_lt (Nat.pos_of_ne_zero h) (by decide)) (n + 4) (m + 4)
        (fun j => by rw [Nat.add_assoc, Nat.add_assoc]; exact hj (4 + j))
      simp [h, e0, e1, e2, e3, erec]

theorem fiddleLoopIC_fwd_length (ab : Nat → Nat) :
    ∀ (k : Nat) (n : Nat), (fiddleLoopIC ab n (4 * k) false).length = 2 * k := by
  intro k
  induction k with
  | zero =>
    intro n
    rw [fiddleLoopIC]
    simp
  | succ k ih =>
    intro n
    rw [fiddleLoopIC]
    rw [dif_neg (show ¬ (4 * (k + 1) = 0) by omega)]
    have h4 : 4 * (k + 1) - 4 = 4 * k := by omega
    simp [h4, ih]
    omega

theorem roundtripIC :
    ∀ (k : Nat) (B : List Nat), (∀ b ∈ B, b < 256) → B.length = 4 * k →
      fiddleLoop18to8IC (fiddleLoopIC (fun i => B.getD i 0) 0 (4 * k) false) (2 * k) = B := by
  intro k
  induction k with
  | zero =>
    intro B hb hlen
    rw [fiddleLoopIC, fiddleLoop18to8IC]
    simp
    have hB : B.length = 0 := by omega
    exact List.length_eq_zero.mp hB
  | succ k ih =>
    intro B hb hlen
    rcases B with _ | ⟨b0, B⟩
    · simp at hlen
    rcases B with _ | ⟨b1, B⟩
    · simp at hlen; omega
    rcases B with _ | ⟨b2, B⟩
    · simp at hlen; omega
    rcases B with _ | ⟨b3, rest⟩
    · simp at hlen; omega
    have hb0 : b0 < 256 := hb b0 (by simp)
    have hb1 : b1 < 256 := hb b1 (by simp)
    have hb2 : b2 < 256 := hb b2 (by simp)
    have hb3 : b3 < 256 := hb b3 (by simp)
    have hrest : ∀ b ∈ rest, b < 256 := fun b hbm => hb b (by simp [hbm])
    have hlen4 : rest.length = 4 * k := by simp at hlen; omega
    have hshift : fiddleLoopIC (fun i => (b0 :: b1 :: b2 :: b3 :: rest).getD i 0) 4 (4 * k) false
        = fiddleLoopIC (fun i => rest.getD i 0) 0 (4 * k) false := by
      apply fiddleLoopIC_fwd_shift
      intro j
      show (b0 :: b1 :: b2 :: b3 :: rest).getD (4 + j) 0 = rest.getD (0 + j) 0
      rw [show 4 + j = (3 + j) + 1 by omega, List.getD_cons_succ,
          show 3 + j = (2 + j) + 1 by omega, List.getD_cons_succ,
          show 2 + j = (1 + j) + 1 by omega, List.getD_cons_succ,
          show 1 + j = (0 + j) + 1 by omega, List.getD_cons_succ]
    have hinner : fiddleLoopIC (fun i => (b0 :: b1 :: b2 :: b3 :: rest).getD i 0) 0 (4 * (k + 1)) false
        = LH36 (b0 * 268435456 + b1 * 1048576 + b2 * 4096 + b3 * 16)
          :: RH36 (b0 * 268435456 + b1 * 1048576 + b2 * 4096 + b3 * 16)
          :: fiddleLoopIC (fun i => rest.getD i 0) 0 (4 * k) false := by
      conv_lhs => rw [fiddleLoopIC]
      rw [dif_neg (show ¬ (4 * (k + 1) = 0) by omega)]
      have f0 : (b0 :: b1 :: b2 :: b3 :: rest).getD (0 + 0) 0 = b0 := rfl
      have f1 : (b0 :: b1 :: b2 :: b3 :: rest).getD (0 + 1) 0 = b1 := rfl
      have f2 : (b0 :: b1 :: b2 :: b3 :: rest).getD (0 + 2) 0 = b2 := rfl
      have f3 : (b0 :: b1 :: b2 :: b3 :: rest).getD (0 + 3) 0 = b3 := rfl
      simp only [f0, f1, f2, f3]
      rw [w36_or_eq4 b0 b1 b2 b3 hb1 hb2 hb3]
      have h44 : 4 * (k + 1) - 4 = 4 * k := by omega
      rw [if_neg (show ¬ (false = true) by decide)]
      rw [show (0 : Nat) + 4 = 4 from rfl, h44, hshift]
    rw [hinner]
    have hw : b0 * 268435456 + b1 * 1048576 + b2 * 4096 + b3 * 16 < 68719476736 := by omega
    conv_lhs => rw [fiddleLoop18to8IC]
    rw [dif_neg (show ¬ (2 * (k + 1) = 0) by omega)]
    simp only [List.getD_cons_zero, List.getD_cons_succ]
    rw [mk_lh_rh _ hw]
    have h22 : 2 * (k + 1) - 2 = 2 * k := by omega
    have hdrop : (LH36 (b0 * 268435456 + b1 * 1048576 + b2 * 4096 + b3 * 16)
          :: RH36 (b0 * 268435456 + b1 * 1048576 + b2 * 4096 + b3 * 16)
          :: fiddleLoopIC (fun i => rest.getD i 0) 0 (4 * k) false).drop 2
        = fiddleLoopIC (fun i => rest.getD i 0) 0 (4 * k) false := rfl
    rw [h22, hdrop, ih rest hrest hlen4]
    have e0 : (b0 * 268435456 + b1 * 1048576 + b2 * 4096 + b3 * 16) >>> 28 &&& 255 = b0 := by
      rw [Nat.shiftRight_eq_div_pow, and255_eq]
      norm_num
      omega
    have e1 : (b0 * 268435456 + b1 * 1048576 + b2 * 4096 + b3 * 16) >>> 20 &&& 255 = b1 := by
      rw [Nat.shiftRight_eq_div_pow, and255_eq]
      norm_num
      omega
    have e2 : (b0 * 268435456 + b1 * 1048576 + b2 * 4096 + b3 * 16) >>> 12 &&& 255 = b2 := by
      rw [Nat.shiftRight_eq_div_pow, and255_eq]
      norm_num
      omega
    have e3 : (b0 * 268435456 + b1 * 1048576 + b2 * 4096 + b3 * 16) >>> 4 &&& 255 = b3 := by
      rw [Nat.shiftRight_eq_div_pow, and255_eq]
      norm_num
      omega
    rw [e0, e1, e2, e3]

theorem fiddleLoopCD_fwd_shift (ab ab2 : Nat → Nat) :
    ∀ cb n m, (∀ j, ab (n + j) = ab2 (m + j)) →
      fiddleLoopCD ab n cb false = fiddleLoopCD ab2 m cb false := by
  intro cb
  induction cb using Nat.strong_induction_on with
  | _ cb ih =>
    intro n m hj
    by_cases h : cb = 0
    · subst h
      conv_lhs => rw [fiddleLoopCD]
      conv_rhs => rw [fiddleLoopCD]
      simp
    · conv_lhs => rw [fiddleLoopCD]
      conv_rhs => rw [fiddleLoopCD]
      have e0 : ab n = ab2 m := by simpa using hj 0
      have e1 := hj 1
      have e2 := hj 2
      have e3 := hj 3
      have e4 := hj 4
      have erec := ih (cb - 5) (Nat.sub_lt (Nat.pos_of_ne_zero h) (by decide)) (n + 5) (m + 5)
        (fun j => by rw [Nat.add_assoc, Nat.add_assoc]; exact hj (5 + j))
      simp [h, e0, e1, e2, e3, e4, erec]

theorem fiddleLoopCD_fwd_length (ab : Nat → Nat) :
    ∀ (k : Nat) (n : Nat), (fiddleLoopCD ab n (5 * k) false).length = 2 * k := by
  intro k
  induction k with
  | zero =>
    intro n
    rw [fiddleLoopCD]
    simp
  | succ k ih =>
    intro n
    rw [fiddleLoopCD]
    rw [dif_neg (show ¬ (5 * (k + 1) = 0) by omega)]
    have h5 : 5 * (k + 1) - 5 = 5 * k := by omega
    simp [h5, ih]
    omega

theorem roundtripCD :
    ∀ (k : Nat) (B : List Nat), (∀ b ∈ B, b < 256) → B.length = 5 * k →
      fiddleLoop18to8CD (fiddleLoopCD (fun i => B.getD i 0) 0 (5 * k) false) (2 * k)
        = maskFifth B := by
  intro k
  induction k with
  | zero =>
    intro B hb hlen
    rw [fiddleLoopCD, fiddleLoop18to8CD]
    simp
    have hB : B.length = 0 := by omega
    rw [List.length_eq_zero.mp hB]
    rfl
  | succ k ih =>
    intro B hb hlen
    rcases B with _ | ⟨b0, B⟩
    · simp at hlen
    rcases B with _ | ⟨b1, B⟩
    · simp at hlen; omega
    rcases B with _ | ⟨b2, B⟩
    · simp at hlen; omega
    rcases B with _ | ⟨b3, B⟩
    · simp at hlen; omega
    rcases B with _ | ⟨b4, rest⟩
    · simp at hlen; omega
    have hb1 : b1 < 256 := hb b1 (by simp)
    have hb2 : b2 < 256 := hb b2 (by simp)
    have hb3 : b3 < 256 := hb b3 (by simp)
    have hrest : ∀ b ∈ rest, b < 256 := fun b hbm => hb b (by simp [hbm])
    have hlen5 : rest.length = 5 * k := by simp at hlen; omega
    have hb4m : b4 &&& 15 < 16 := by rw [and15_eq]; omega
    have hshift : fiddleLoopCD (fun i => (b0 :: b1 :: b2 :: b3 :: b4 :: rest).getD i 0) 5 (5 * k) false
        = fiddleLoopCD (fun i => rest.getD i 0) 0 (5 * k) false := by
      apply fiddleLoopCD_fwd_shift
      intro j
      show (b0 :: b1 :: b2 :: b3 :: b4 :: rest).getD (5 + j) 0 = rest.getD (0 + j) 0
      rw [show 5 + j = (4 + j) + 1 by omega, List.getD_cons_succ,
          show 4 + j = (3 + j) + 1 by omega, List.getD_cons_succ,
          show 3 + j = (2 + j) + 1 by omega, List.getD_cons_succ,
          show 2 + j = (1 + j) + 1 by omega, List.getD_cons_succ,
          show 1 + j = (0 + j) + 1 by omega, List.getD_cons_succ]
    have hinner : fiddleLoopCD (fun i => (b0 :: b1 :: b2 :: b3 :: b4 :: rest).getD i 0) 0
          (5 * (k + 1)) false
        = LH36 (b0 * 268435456 + b1 * 1048576 + b2 * 4096 + b3 * 16 + (b4 &&& 15))
          :: RH36 (b0 * 268435456 + b1 * 1048576 + b2 * 4096 + b3 * 16 + (b4 &&& 15))
          :: fiddleLoopCD (fun i => rest.getD i 0) 0 (5 * k) false := by
      conv_lhs => rw [fiddleLoopCD]
      rw [dif_neg (show ¬ (5 * (k + 1) = 0) by omega)]
      have f0 : (b0 :: b1 :: b2 :: b3 :: b4 :: rest).getD (0 + 0) 0 = b0 := rfl
      have f1 : (b0 :: b1 :: b2 :: b3 :: b4 :: rest).getD (0 + 1) 0 = b1 := rfl
      have f2 : (b0 :: b1 :: b2 :: b3 :: b4 :: rest).getD (0 + 2) 0 = b2 := rfl
      have f3 : (b0 :: b1 :: b2 :: b3 :: b4 :: rest).getD (0 + 3) 0 = b3 := rfl
      have f4 : (b0 :: b1 :: b2 :: b3 :: b4 :: rest).getD (0 + 4) 0 = b4 := rfl
      simp only [f0, f1, f2, f3, f4]
      rw [show (0o17 : Nat) = 15 from rfl]
      rw [w36_or_eq b0 b1 b2 b3 (b4 &&& 15) hb1 hb2 hb3 hb4m]
      have h55 : 5 * (k + 1) - 5 = 5 * k := by omega
      rw [if_neg (show ¬ (false = true) by decide)]
      rw [show (0 : Nat) + 5 = 5 from rfl, h55, hshift]
    rw [hinner]
    have hw : b0 * 268435456 + b1 * 1048576 + b2 * 4096 + b3 * 16 + (b4 &&& 15) < 68719476736 := by
      have hb0 : b0 < 256 := hb b0 (by simp)
      have := hb4m
      omega
    conv_lhs => rw [fiddleLoop18to8CD]
    rw [dif_neg (show ¬ (2 * (k + 1) = 0) by omega)]
    simp only [List.getD_cons_zero, List.getD_cons_succ]
    rw [mk_lh_rh _ hw]
    have h22 : 2 * (k + 1) - 2 = 2 * k := by omega
    have hdrop : (LH36 (b0 * 268435456 + b1 * 1048576 + b2 * 4096 + b3 * 16 + (b4 &&& 15))
          :: RH36 (b0 * 268435456 + b1 * 1048576 + b2 * 4096 + b3 * 16 + (b4 &&& 15))
          :: fiddleLoopCD (fun i => rest.getD i 0) 0 (5 * k) false).drop 2
        = fiddleLoopCD (fun i => rest.getD i 0) 0 (5 * k) false := rfl
    rw [h22, hdrop, ih rest hrest hlen5]
    have hb0 : b0 < 256 := hb b0 (by simp)
    have hm := hb4m
    rw [and15_eq] at hm ⊢
    have e0 : (b0 * 268435456 + b1 * 1048576 + b2 * 4096 + b3 * 16 + b4 % 16) >>> 28 &&& 255 = b0 := by
      rw [Nat.shiftRight_eq_div_pow, and255_eq]
      norm_num
      omega
    have e1 : (b0 * 268435456 + b1 * 1048576 + b2 * 4096 + b3 * 16 + b4 % 16) >>> 20 &&& 255 = b1 := by
      rw [Nat.shiftRight_eq_div_pow, and255_eq]
      norm_num
      omega
    have e2 : (b0 * 268435456 + b1 * 1048576 + b2 * 4096 + b3 * 16 + b4 % 16) >>> 12 &&& 255 = b2 := by
      rw [Nat.shiftRight_eq_div_pow, and255_eq]
      norm_num
      omega
    have e3 : (b0 * 268435456 + b1 * 1048576 + b2 * 4096 + b3 * 16 + b4 % 16) >>> 4 &&& 255 = b3 := by
      rw [Nat.shiftRight_eq_div_pow, and255_eq]
      norm_num
      omega
    have e4 : (b0 * 268435456 + b1 * 1048576 + b2 * 4096 + b3 * 16 + b4 % 16) &&& 15 = b4 % 16 := by
      rw [and15_eq]
      omega
    rw [e0, e1, e2, e3, e4]
    simp [maskFifth, and15_eq]

theorem Fiddle8to18_IC_eq (ab : Nat → Nat) (cbIn : Nat) (fr : Bool) :
    Fiddle8to18 TMAM_10_COMPATIBLE ab cbIn fr
      = fiddleLoopIC ab (if fr then ((cbIn + 3) / 4) * 4 else 0) (((cbIn + 3) / 4) * 4) fr := by
  rw [Fiddle8to18]
  norm_num [TMAM_10_COMPATIBLE, TMAM_10_CORE_DUMP]

theorem Fiddle8to18_CD_eq (ab : Nat → Nat) (cbIn : Nat) (fr : Bool) :
    Fiddle8to18 TMAM_10_CORE_DUMP ab cbIn fr
      = fiddleLoopCD ab (if fr then ((cbIn + 4) / 5) * 5 else 0) (((cbIn * 5) + 4) / 5) fr := by
  rw [Fiddle8to18]
  norm_num [TMAM_10_CORE_DUMP]

theorem Fiddle18to8_IC_eq (al : List Nat) (clIn : Nat) :
    Fiddle18to8 TMAM_10_COMPATIBLE al clIn = fiddleLoop18to8IC al clIn := by
  rw [Fiddle18to8]
  norm_num [TMAM_10_COMPATIBLE, TMAM_10_CORE_DUMP]

theorem Fiddle18to8_CD_eq (al : List Nat) (clIn : Nat) :
    Fiddle18to8 TMAM_10_CORE_DUMP al clIn = fiddleLoop18to8CD al clIn := by
  rw [Fiddle18to8]
  norm_num [TMAM_10_CORE_DUMP]

/-- C2: for every byte buffer whose length is a multiple of 4, the
10-compatible 18-to-8 fiddler inverts the forward 8-to-18 fiddler
exactly; for length a multiple of 5, the 10-core-dump round trip
reproduces the buffer except that every 5th byte keeps only its low 4
bits (the high nibble comes back as zero). -/
theorem C2_fiddler_roundtrip (B : List Nat) (hb : ∀ b ∈ B, b < 256) :
    (4 ∣ B.length →
      Fiddle18to8 TMAM_10_COMPATIBLE
        (Fiddle8to18 TMAM_10_COMPATIBLE (fun i => B.getD i 0) B.length false)
        (Fiddle8to18 TMAM_10_COMPATIBLE (fun i => B.getD i 0) B.length false).length = B)
    ∧ (5 ∣ B.length →
      Fiddle18to8 TMAM_10_CORE_DUMP
        (Fiddle8to18 TMAM_10_CORE_DUMP (fun i => B.getD i 0) B.length false)
        (Fiddle8to18 TMAM_10_CORE_DUMP (fun i => B.getD i 0) B.length false).length
        = maskFifth B) := by
  constructor
  · rintro ⟨k, hk⟩
    rw [Fiddle8to18_IC_eq, Fiddle18to8_IC_eq]
    rw [if_neg (show ¬ (false = true) by decide)]
    rw [show ((B.length + 3) / 4) * 4 = 4 * k by omega]
    rw [fiddleLoopIC_fwd_length]
    exact roundtripIC k B hb hk
  · rintro ⟨k, hk⟩
    rw [Fiddle8to18_CD_eq, Fiddle18to8_CD_eq]
    rw [if_neg (show ¬ (false = true) by decide)]
    rw [show ((B.length * 5) + 4) / 5 = 5 * k by omega]
    rw [fiddleLoopCD_fwd_length]
    exact roundtripCD k B hb hk

/-- C2 witness: the round trip at the concrete 20-byte buffer
`[1, 2, ..., 20]`, whose length is a multiple of both 4 and 5. -/
theorem C2_fiddler_roundtrip_witness :
    (Fiddle18to8 TMAM_10_COMPATIBLE
      (Fiddle8to18 TMAM_10_COMPATIBLE
        (fun i => [1,2,3,4,5,6,7,8,9,10,11,12,13,14,15,16,17,18,19,20].getD i 0) 20 false)
      (Fiddle8to18 TMAM_10_COMPATIBLE
        (fun i => [1,2,3,4,5,6,7,8,9,10,11,12,13,14,15,16,17,18,19,20].getD i 0) 20 false).length
      = [1,2,3,4,5,6,7,8,9,10,11,12,13,14,15,16,17,18,19,20])
    ∧ (Fiddle18to8 TMAM_10_CORE_DUMP
      (Fiddle8to18 TMAM_10_CORE_DUMP
        (fun i => [1,2,3,4,5,6,7,8,9,10,11,12,13,14,15,16,17,18,19,20].getD i 0) 20 false)
      (Fiddle8to18 TMAM_10_CORE_DUMP
        (fun i => [1,2,3,4,5,6,7,8,9,10,11,12,13,14,15,16,17,18,19,20].getD i 0) 20 false).length
      = maskFifth [1,2,3,4,5,6,7,8,9,10,11,12,13,14,15,16,17,18,19,20]) :=
  ⟨(C2_fiddler_roundtrip _ (by decide)).1 (by decide),
   (C2_fiddler_roundtrip _ (by decide)).2 (by decide)⟩

/-- C1: the claim asserts that the reverse walk of Fiddle8to18 emits the
forward word sequence reversed with the halves of each word swapped,
assembling its first word from the last group of the record, at input
index L - group.  The code contradicts this (and its own descriptive
comment): for both formats the reverse walk starts at the rounded-up
length L itself (TapeDrive.cpp lines 188 and 205), so its first group is
the slack beyond the record and the group at offset 0 is never emitted.
At B = [1,2,3,4] (10-compatible, one group, zeroed slack) the forward
walk gives the two halves 1032 and 12352 of the word packed from bytes
0..3, while the reverse walk returns [0, 0], not the required
[12352, 1032]. -/
theorem C1_reverse_walk_bug :
    Fiddle8to18 TMAM_10_COMPATIBLE (fun i => [1, 2, 3, 4].getD i 0) 4 false = [1032, 12352]
    ∧ Fiddle8to18 TMAM_10_COMPATIBLE (fun i => [1, 2, 3, 4].getD i 0) 4 true = [0, 0]
    ∧ Fiddle8to18 TMAM_10_COMPATIBLE (fun i => [1, 2, 3, 4].getD i 0) 4 true ≠ [12352, 1032] := by
  have hfwd : Fiddle8to18 TMAM_10_COMPATIBLE (fun i => [1, 2, 3, 4].getD i 0) 4 false
      = [1032, 12352] := by
    rw [Fiddle8to18_IC_eq]
    norm_num
    rw [fiddleLoopIC]
    norm_num [RH36, LH36]
    constructor
    · decide
    constructor
    · decide
    rw [fiddleLoopIC]
    norm_num
  have hrev : Fiddle8to18 TMAM_10_COMPATIBLE (fun i => [1, 2, 3, 4].getD i 0) 4 true
      = [0, 0] := by
    rw [Fiddle8to18_IC_eq]
    norm_num
    rw [fiddleLoopIC]
    norm_num [RH36, LH36]
    rw [fiddleLoopIC]
    norm_num
  exact ⟨hfwd, hrev, by rw [hrev]; decide⟩

/-- C5 counterexample: a WRITE with byte count 2 (within 1..65536,
10-compatible format) yields the half-word count 2*2/4 = 1, which is
odd, so the claim as stated (evenness for every count in 1..65536)
fails. -/
theorem C5_counterexample :
    1 ≤ 2 ∧ 2 ≤ 65536
    ∧ writeHalfwordCount TMAM_10_COMPATIBLE 2 = 1
    ∧ ¬ (writeHalfwordCount TMAM_10_COMPATIBLE 2 % 2 = 0) := by
  decide

/-- C5 amended: for every tape WRITE byte count in 1..65536 that is a
multiple of the group size (4 for 10-compatible, 5 for 10-core-dump),
the half-word count N*2/4 resp. N*2/5 computed by DoWrite is even, so
the Fiddle18to8 evenness assertion holds on those calls. -/
theorem C5_write_halfword_count_even (bFormat lByteCount : Nat)
    (hlo : 1 ≤ lByteCount) (hhi : lByteCount ≤ 65536)
    (hfmt : (bFormat = TMAM_10_COMPATIBLE ∧ 4 ∣ lByteCount)
            ∨ (bFormat = TMAM_10_CORE_DUMP ∧ 5 ∣ lByteCount)) :
    writeHalfwordCount bFormat lByteCount % 2 = 0 := by
  rcases hfmt with ⟨rfl, m, rfl⟩ | ⟨rfl, m, rfl⟩ <;>
    simp [writeHalfwordCount, TMAM_10_COMPATIBLE, TMAM_10_CORE_DUMP] <;> omega

/-- C5 witness: the amended statement applied at byte count 8,
10-compatible format. -/
theorem C5_write_halfword_count_even_witness :
    writeHalfwordCount TMAM_10_COMPATIBLE 8 % 2 = 0 :=
  C5_write_halfword_count_even TMAM_10_COMPATIBLE 8 (by decide) (by decide)
    (Or.inl ⟨rfl, by decide⟩)

theorem geometry_core (t : CDiskType) (f : Bool)
    (hS : 0 < GetSectors t f) (hH : 0 < t.nHeads) (hC : t.nCylinders ≤ 65536)
    (hS16 : GetSectors t f ≤ GetSectors t false) :
    ∀ c h s lba : Nat,
      (IsValidCHS t c h s f →
        CHStoLBA t c h s f = (c * t.nHeads + h) * GetSectors t f + s
        ∧ CHStoLBA t c h s f < t.nCylinders * t.nHeads * GetSectors t f
        ∧ LBAtoCHS t (CHStoLBA t c h s f) f = (c, h, s))
      ∧ (¬ IsValidCHS t c h s f → CHStoLBA t c h s f = INVALID_SECTOR)
      ∧ (lba < t.nCylinders * t.nHeads * GetSectors t f →
          IsValidCHS t (LBAtoCHS t lba f).1 (LBAtoCHS t lba f).2.1 (LBAtoCHS t lba f).2.2 f
          ∧ CHStoLBA t (LBAtoCHS t lba f).1 (LBAtoCHS t lba f).2.1 (LBAtoCHS t lba f).2.2 f
            = lba) := by
  set S := GetSectors t f with hSdef
  set H := t.nHeads with hHdef
  set C := t.nCylinders with hCdef
  intro c h s lba
  refine ⟨?_, ?_, ?_⟩
  · rintro hv
    obtain ⟨hc, hh, hs⟩ := hv
    have heq : CHStoLBA t c h s f = (c * H + h) * S + s := by
      rw [CHStoLBA, if_pos ⟨hc, hh, hs⟩]
    have hcap : (c * H + h) * S + s < C * H * S := by
      have h1 : c * H + h + 1 ≤ C * H := by
        calc c * H + h + 1 ≤ c * H + H := by omega
          _ = (c + 1) * H := by ring
          _ ≤ C * H := Nat.mul_le_mul_right H hc
      calc (c * H + h) * S + s < (c * H + h) * S + S := by omega
        _ = (c * H + h + 1) * S := by ring
        _ ≤ C * H * S := Nat.mul_le_mul_right S h1
    have e1 : ((c * H + h) * S + s) % S = s := by
      rw [show (c * H + h) * S + s = S * (c * H + h) + s by ring, Nat.mul_add_mod]
      exact Nat.mod_eq_of_lt hs
    have e2 : ((c * H + h) * S + s) / S = c * H + h := by
      rw [show (c * H + h) * S = S * (c * H + h) by ring, Nat.mul_add_div hS,
        Nat.div_eq_of_lt hs]
      omega
    have e3 : (c * H + h) % H = h := by
      rw [show c * H + h = H * c + h by ring, Nat.mul_add_mod]
      exact Nat.mod_eq_of_lt hh
    have e4 : (c * H + h) / H = c := by
      rw [show c * H + h = H * c + h by ring, Nat.mul_add_div hH, Nat.div_eq_of_lt hh]
      omega
    have e5 : c % 65536 = c := Nat.mod_eq_of_lt (Nat.lt_of_lt_of_le hc hC)
    have hv16 : IsValidCHS t c h s false := ⟨hc, hh, Nat.lt_of_lt_of_le hs hS16⟩
    refine ⟨heq, by rw [heq]; exact hcap, ?_⟩
    rw [heq, LBAtoCHS]
    simp only [← hSdef, ← hHdef, e1, e2, e3, e4, e5]
    rw [if_neg (not_not_intro hv16)]
  · intro hnv
    rw [CHStoLBA, if_neg hnv]
  · intro hlba
    have hs0 : lba % S < S := Nat.mod_lt _ hS
    have hl2 : lba / S < C * H := (Nat.div_lt_iff_lt_mul hS).mpr hlba
    have hh0 : lba / S % H < H := Nat.mod_lt _ hH
    have hc0 : lba / S / H < C := (Nat.div_lt_iff_lt_mul hH).mpr hl2
    have e5 : lba / S / H % 65536 = lba / S / H :=
      Nat.mod_eq_of_lt (Nat.lt_of_lt_of_le hc0 hC)
    have hv16 : IsValidCHS t (lba / S / H) (lba / S % H) (lba % S) false :=
      ⟨hc0, hh0, Nat.lt_of_lt_of_le hs0 hS16⟩
    have hvf : IsValidCHS t (lba / S / H) (lba / S % H) (lba % S) f := ⟨hc0, hh0, hs0⟩
    have hchs : LBAtoCHS t lba f = (lba / S / H, lba / S % H, lba % S) := by
      rw [LBAtoCHS]
      simp only [← hSdef, ← hHdef, e5]
      rw [if_neg (not_not_intro hv16)]
    rw [hchs]
    refine ⟨hvf, ?_⟩
    rw [CHStoLBA, if_pos hvf]
    have r1 : lba / S / H * H + lba / S % H = lba / S := by
      rw [Nat.mul_comm]
      exact Nat.div_add_mod _ H
    rw [r1, show lba / S * S = S * (lba / S) by ring]
    exact Nat.div_add_mod lba S

/-- C3: for every disk type in the registry and both encoding flags,
CHStoLBA returns (cyl*heads + head)*sectors + sector for in-range
addresses (always below the capacity cylinders*heads*sectors) and the
INVALID_SECTOR sentinel otherwise; LBAtoCHS inverts it on every valid
address, and every LBA below the capacity is hit by exactly the triple
LBAtoCHS returns, making the map a bijection between valid C/H/S triples
and LBAs 0..capacity-1. -/
theorem C3_chs_lba_bijection (t : CDiskType) (ht : t ∈ diskTypes) (f : Bool)
    (c h s lba : Nat) :
    (IsValidCHS t c h s f →
      CHStoLBA t c h s f = (c * t.nHeads + h) * GetSectors t f + s
      ∧ CHStoLBA t c h s f < t.nCylinders * t.nHeads * GetSectors t f
      ∧ LBAtoCHS t (CHStoLBA t c h s f) f = (c, h, s))
    ∧ (¬ IsValidCHS t c h s f → CHStoLBA t c h s f = INVALID_SECTOR)
    ∧ (lba < t.nCylinders * t.nHeads * GetSectors t f →
        IsValidCHS t (LBAtoCHS t lba f).1 (LBAtoCHS t lba f).2.1 (LBAtoCHS t lba f).2.2 f
        ∧ CHStoLBA t (LBAtoCHS t lba f).1 (LBAtoCHS t lba f).2.1 (LBAtoCHS t lba f).2.2 f
          = lba) := by
  fin_cases ht <;>
    exact geometry_core _ f (by cases f <;> decide) (by decide) (by decide)
      (by cases f <;> decide) c h s lba

/-- C3 witness: the RP06 in 16-bit mode at C/H/S = 1/2/3 (valid, LBA 465,
round trip recovers the triple), at C/H/S = 902/2/3 (cylinder out of
range, sentinel), and at LBA 42 (hit by its LBAtoCHS triple). -/
theorem C3_chs_lba_bijection_witness :
    (CHStoLBA RP06type 1 2 3 false = (1 * RP06type.nHeads + 2) * GetSectors RP06type false + 3
      ∧ CHStoLBA RP06type 1 2 3 false
          < RP06type.nCylinders * RP06type.nHeads * GetSectors RP06type false
      ∧ LBAtoCHS RP06type (CHStoLBA RP06type 1 2 3 false) false = (1, 2, 3))
    ∧ CHStoLBA RP06type 902 2 3 false = INVALID_SECTOR
    ∧ (IsValidCHS RP06type (LBAtoCHS RP06type 42 false).1 (LBAtoCHS RP06type 42 false).2.1
          (LBAtoCHS RP06type 42 false).2.2 false
      ∧ CHStoLBA RP06type (LBAtoCHS RP06type 42 false).1 (LBAtoCHS RP06type 42 false).2.1
          (LBAtoCHS RP06type 42 false).2.2 false = 42) :=
  ⟨(C3_chs_lba_bijection RP06type (by decide) false 1 2 3 0).1 (by decide),
   (C3_chs_lba_bijection RP06type (by decide) false 902 2 3 0).2.1 (by decide),
   (C3_chs_lba_bijection RP06type (by decide) false 0 0 0 42).2.2 (by decide)⟩

/-- C4: WaitCommand returns exactly one of three outcome kinds: TIMEOUT
(0) when the bridge is offline, when the interrupt wait times out or is
cancelled, or when the re-read after an interrupt still yields an
invalid word; the valid word itself when either FIFO read produces one;
and ERROR (0x0FFFFFFF) on any other wait failure (interrupt enable
failure or a wait status other than success/timeout/cancel).  It never
returns a word with a clear validity bit other than those two
sentinels. -/
theorem C4_wait_command_outcomes (fOffline : Bool) (cmd1 : Nat) (fEnableOk : Bool)
    (w : PlxStatus) (cmd2 : Nat) :
    (fOffline = true → WaitCommand fOffline cmd1 fEnableOk w cmd2 = CDECUPE_TIMEOUT)
    ∧ (fOffline = false → IsCommandValid cmd1 = true →
        WaitCommand fOffline cmd1 fEnableOk w cmd2 = cmd1)
    ∧ (fOffline = false → IsCommandValid cmd1 = false → fEnableOk = true →
        (w = PlxStatus.apiWaitTimeout ∨ w = PlxStatus.apiWaitCanceled) →
        WaitCommand fOffline cmd1 fEnableOk w cmd2 = CDECUPE_TIMEOUT)
    ∧ (fOffline = false → IsCommandValid cmd1 = false → fEnableOk = true →
        w = PlxStatus.apiSuccess → IsCommandValid cmd2 = false →
        WaitCommand fOffline cmd1 fEnableOk w cmd2 = CDECUPE_TIMEOUT)
    ∧ (fOffline = false → IsCommandValid cmd1 = false → fEnableOk = true →
        w = PlxStatus.apiSuccess → IsCommandValid cmd2 = true →
        WaitCommand fOffline cmd1 fEnableOk w cmd2 = cmd2)
    ∧ (fOffline = false → IsCommandValid cmd1 = false →
        (fEnableOk = false ∨ w = PlxStatus.apiFailed) →
        WaitCommand fOffline cmd1 fEnableOk w cmd2 = CDECUPE_ERROR)
    ∧ (IsCommandValid (WaitCommand fOffline cmd1 fEnableOk w cmd2) = true
        ∨ WaitCommand fOffline cmd1 fEnableOk w cmd2 = CDECUPE_TIMEOUT
        ∨ WaitCommand fOffline cmd1 fEnableOk w cmd2 = CDECUPE_ERROR) := by
  cases fOffline <;> cases fEnableOk <;> cases w <;>
    by_cases h1 : IsCommandValid cmd1 <;> by_cases h2 : IsCommandValid cmd2 <;>
      simp_all [WaitCommand]

/-- C4 witness: the offline, fast-path, interrupt-timeout, spurious
interrupt, interrupt-then-valid and enable-failure cases at concrete
inputs. -/
theorem C4_wait_command_outcomes_witness :
    WaitCommand true 0 true PlxStatus.apiSuccess 0 = CDECUPE_TIMEOUT
    ∧ WaitCommand false 0x80000005 true PlxStatus.apiFailed 0 = 0x80000005
    ∧ WaitCommand false 7 true PlxStatus.apiWaitTimeout 0 = CDECUPE_TIMEOUT
    ∧ WaitCommand false 7 true PlxStatus.apiSuccess 9 = CDECUPE_TIMEOUT
    ∧ WaitCommand false 7 true PlxStatus.apiSuccess 0x80000009 = 0x80000009
    ∧ WaitCommand false 7 false PlxStatus.apiSuccess 0 = CDECUPE_ERROR :=
  ⟨(C4_wait_command_outcomes true 0 true PlxStatus.apiSuccess 0).1 rfl,
   (C4_wait_command_outcomes false 0x80000005 true PlxStatus.apiFailed 0).2.1 rfl (by decide),
   (C4_wait_command_outcomes false 7 true PlxStatus.apiWaitTimeout 0).2.2.1 rfl (by decide)
     rfl (Or.inl rfl),
   (C4_wait_command_outcomes false 7 true PlxStatus.apiSuccess 9).2.2.2.1 rfl (by decide)
     rfl rfl (by decide),
   (C4_wait_command_outcomes false 7 true PlxStatus.apiSuccess 0x80000009).2.2.2.2.1 rfl
     (by decide) rfl rfl (by decide),
   (C4_wait_command_outcomes false 7 false PlxStatus.apiSuccess 0).2.2.2.2.2.1 rfl (by decide)
     (Or.inl rfl)⟩

/-- C6: a READ FORWARD/REVERSE that obtains a record of b > 0 bytes
clears the TMTCR record-count field, writes the byte count to TMBCR, and
sets TMDIR (before the data is handed to the bridge) to DONE, SHORT
RECORD or LONG RECORD according to b versus the requested count, then
writes the fiddled half-words with the force-exception flag exactly when
b differs from the request; a tape mark, EOT or read error instead
zeroes TMBCR, sets the corresponding interrupt code and sends one empty
exception transfer. -/
theorem C6_tape_read_interrupts (bFormat lByteCount : Nat) (fReverse : Bool)
    (ab : List Nat) (hab : ab ≠ []) :
    (ab.length = lByteCount →
      DoRead true fReverse bFormat lByteCount false (ReadRecordResult.bytes ab)
        = [Ev.clearBitMBR TMTCR TMTCR_M_REC_COUNT,
           Ev.writeMBR TMBCR (LOWORD ab.length),
           setDataIntEv TMIC_DONE 0 0,
           Ev.writeData (Fiddle8to18 bFormat (fun i => ab.getD i 0) ab.length fReverse) false])
    ∧ (ab.length < lByteCount →
      DoRead true fReverse bFormat lByteCount false (ReadRecordResult.bytes ab)
        = [Ev.clearBitMBR TMTCR TMTCR_M_REC_COUNT,
           Ev.writeMBR TMBCR (LOWORD ab.length),
           setDataIntEv TMIC_SHORT_RECORD 0 0,
           Ev.writeData (Fiddle8to18 bFormat (fun i => ab.getD i 0) ab.length fReverse) true])
    ∧ (lByteCount < ab.length →
      DoRead true fReverse bFormat lByteCount false (ReadRecordResult.bytes ab)
        = [Ev.clearBitMBR TMTCR TMTCR_M_REC_COUNT,
           Ev.writeMBR TMBCR (LOWORD ab.length),
           setDataIntEv TMIC_LONG_RECORD 0 0,
           Ev.writeData (Fiddle8to18 bFormat (fun i => ab.getD i 0) ab.length fReverse) true])
    ∧ (ab.length < 65536 → LOWORD ab.length = ab.length)
    ∧ (DoRead true fReverse bFormat lByteCount false ReadRecordResult.tapemark
        = [Ev.writeMBR TMBCR 0, setDataIntEv TMIC_TAPE_MARK 0 0, Ev.emptyTransfer true])
    ∧ (DoRead true fReverse bFormat lByteCount false ReadRecordResult.eotbot
        = [Ev.writeMBR TMBCR 0, setDataIntEv TMIC_EOT 0 0, Ev.emptyTransfer true])
    ∧ (DoRead true fReverse bFormat lByteCount false ReadRecordResult.badOther
        = [Ev.writeMBR TMBCR 0, setDataIntEv TMIC_UNREADABLE 0 1, Ev.emptyTransfer true]) := by
  have hlen : ab.length ≠ 0 := by simpa using hab
  refine ⟨?_, ?_, ?_, ?_, ?_, ?_, ?_⟩
  · intro h
    simp [DoRead, CheckOnline, hlen, h]
    omega
  · intro h
    simp [DoRead, CheckOnline, hlen, h, Nat.ne_of_lt h, Nat.not_lt_of_lt h]
  · intro h
    simp [DoRead, CheckOnline, hlen, h, Nat.ne_of_gt h, Nat.not_lt_of_lt h]
  · intro h
    rw [LOWORD, show (0xFFFF : Nat) = 2 ^ 16 - 1 by norm_num, Nat.and_pow_two_sub_one_eq_mod]
    omega
  · simp [DoRead, CheckOnline]
  · simp [DoRead, CheckOnline]
  · simp [DoRead, CheckOnline]

/-- C6 witness: a 5-byte record read with requested count 5 (DONE, no
exception), requested count 8 (short record, exception), and the tape
mark case, 10-compatible format, forward. -/
theorem C6_tape_read_interrupts_witness :
    (DoRead true false TMAM_10_COMPATIBLE 5 false (ReadRecordResult.bytes [104, 101, 108, 108, 111])
      = [Ev.clearBitMBR TMTCR TMTCR_M_REC_COUNT,
         Ev.writeMBR TMBCR (LOWORD 5),
         setDataIntEv TMIC_DONE 0 0,
         Ev.writeData (Fiddle8to18 TMAM_10_COMPATIBLE
           (fun i => [104, 101, 108, 108, 111].getD i 0) 5 false) false])
    ∧ (DoRead true false TMAM_10_COMPATIBLE 8 false (ReadRecordResult.bytes [104, 101, 108, 108, 111])
      = [Ev.clearBitMBR TMTCR TMTCR_M_REC_COUNT,
         Ev.writeMBR TMBCR (LOWORD 5),
         setDataIntEv TMIC_SHORT_RECORD 0 0,
         Ev.writeData (Fiddle8to18 TMAM_10_COMPATIBLE
           (fun i => [104, 101, 108, 108, 111].getD i 0) 5 false) true])
    ∧ (DoRead true false TMAM_10_COMPATIBLE 5 false ReadRecordResult.tapemark
      = [Ev.writeMBR TMBCR 0, setDataIntEv TMIC_TAPE_MARK 0 0, Ev.emptyTransfer true]) :=
  ⟨(C6_tape_read_interrupts TMAM_10_COMPATIBLE 5 false _ (by decide)).1 (by decide),
   (C6_tape_read_interrupts TMAM_10_COMPATIBLE 8 false _ (by decide)).2.1 (by decide),
   (C6_tape_read_interrupts TMAM_10_COMPATIBLE 5 false [104, 101, 108, 108, 111]
     (by decide)).2.2.2.2.1⟩

theorem doSpaceLoop_ok_exhausts {σ : Type} (step : σ → σ × SpaceRet) :
    ∀ (n : Nat) (st : σ),
      (doSpaceLoop step n st).2.2 = SpaceRet.ok → (doSpaceLoop step n st).1 = 0 := by
  intro n
  induction n using Nat.strong_induction_on with
  | _ n ih =>
    intro st hok
    by_cases hp : (step st).2 = SpaceRet.ok
    · match n with
      | 0 =>
        rw [doSpaceLoop.eq_def]
        simp [hp]
      | 1 =>
        rw [doSpaceLoop.eq_def]
        simp [hp]
      | m + 2 =>
        rw [doSpaceLoop.eq_def] at hok ⊢
        simp only [hp, if_pos] at hok ⊢
        exact ih (m + 1) (by omega) _ hok
    · rw [doSpaceLoop.eq_def] at hok
      simp [hp] at hok

theorem doSpaceLoop_count_le {σ : Type} (step : σ → σ × SpaceRet) :
    ∀ (n : Nat) (st : σ), (doSpaceLoop step n st).1 ≤ n := by
  intro n
  induction n using Nat.strong_induction_on with
  | _ n ih =>
    intro st
    by_cases hp : (step st).2 = SpaceRet.ok
    · match n with
      | 0 =>
        rw [doSpaceLoop.eq_def]
        simp [hp]
      | 1 =>
        rw [doSpaceLoop.eq_def]
        simp [hp]
      | m + 2 =>
        rw [doSpaceLoop.eq_def]
        simp only [hp, if_pos]
        exact Nat.le_trans (ih (m + 1) (by omega) _) (by omega)
    · rw [doSpaceLoop.eq_def]
      simp [hp]

/-- C7: a SPACE RECORD/FILE command on an online slave-0 tape loops until
the count is exhausted or the space primitive stops early; the count
byte of the motion command register is rewritten to the number of
requested skips not completed, and the final motion interrupt is
TAPE_MARK on a tape mark, BOT or EOT at the tape ends by direction,
BAD_TAPE on error, and DONE on exhaustion.  In particular, spacing
forward 4 records over [record, record, tape mark, record] stops just
after the mark with the count field at 2 and interrupt TAPE_MARK. -/
theorem C7_space_records (step : TapeImage → TapeImage × SpaceRet) (st : TapeImage)
    (nCount : Nat) (fReverse : Bool) :
    ((doSpaceLoop step nCount st).2.2 = SpaceRet.ok →
      DoSpace step true st nCount fReverse
        = ((doSpaceLoop step nCount st).2.1,
           [Ev.setMotionCount 0 0, clearMotionGOEv 0, setMotionIntEv TMIC_DONE 0 0]))
    ∧ ((doSpaceLoop step nCount st).2.2 = SpaceRet.tapemark →
      DoSpace step true st nCount fReverse
        = ((doSpaceLoop step nCount st).2.1,
           [Ev.setMotionCount (doSpaceLoop step nCount st).1 0, clearMotionGOEv 0,
            setMotionIntEv TMIC_TAPE_MARK 0 0]))
    ∧ ((doSpaceLoop step nCount st).2.2 = SpaceRet.eotbot →
      DoSpace step true st nCount fReverse
        = ((doSpaceLoop step nCount st).2.1,
           [Ev.setMotionCount (doSpaceLoop step nCount st).1 0, clearMotionGOEv 0,
            setMotionIntEv (if fReverse then TMIC_BOT else TMIC_EOT) 0 0]))
    ∧ ((doSpaceLoop step nCount st).2.2 = SpaceRet.badtape →
      DoSpace step true st nCount fReverse
        = ((doSpaceLoop step nCount st).2.1,
           [Ev.setMotionCount (doSpaceLoop step nCount st).1 0, clearMotionGOEv 0,
            setMotionIntEv TMIC_BAD_TAPE 0 0]))
    ∧ (doSpaceLoop step nCount st).1 ≤ nCount
    ∧ (DoSpace SpaceForwardRecord true
        ⟨[TapeEntry.data 5, TapeEntry.data 7, TapeEntry.mark, TapeEntry.data 9], 0⟩
        (motionRepeatCount 4) false
      = (⟨[TapeEntry.data 5, TapeEntry.data 7, TapeEntry.mark, TapeEntry.data 9], 3⟩,
         [Ev.setMotionCount 2 0, clearMotionGOEv 0, setMotionIntEv TMIC_TAPE_MARK 0 0])) := by
  refine ⟨?_, ?_, ?_, ?_, doSpaceLoop_count_le step nCount st, ?_⟩
  · intro hok
    have h0 := doSpaceLoop_ok_exhausts step nCount st hok
    simp [DoSpace, CheckOnline, hok, h0]
  · intro hr
    simp [DoSpace, CheckOnline, hr]
  · intro hr
    simp [DoSpace, CheckOnline, hr]
  · intro hr
    simp [DoSpace, CheckOnline, hr]
  · decide

/-- C7 witness: a count-1 space onto a tape mark (count byte stays 1,
TAPE_MARK interrupt) and a count-2 space over two records (count
exhausted to 0, DONE interrupt). -/
theorem C7_space_records_witness :
    DoSpace SpaceForwardRecord true ⟨[TapeEntry.mark], 0⟩ 1 false
      = (⟨[TapeEntry.mark], 1⟩,
         [Ev.setMotionCount 1 0, clearMotionGOEv 0, setMotionIntEv TMIC_TAPE_MARK 0 0])
    ∧ DoSpace SpaceForwardRecord true ⟨[TapeEntry.data 3, TapeEntry.data 4], 0⟩ 2 false
      = (⟨[TapeEntry.data 3, TapeEntry.data 4], 2⟩,
         [Ev.setMotionCount 0 0, clearMotionGOEv 0, setMotionIntEv TMIC_DONE 0 0]) :=
  ⟨(C7_space_records SpaceForwardRecord ⟨[TapeEntry.mark], 0⟩ 1 false).2.1 (by decide),
   (C7_space_records SpaceForwardRecord ⟨[TapeEntry.data 3, TapeEntry.data 4], 0⟩ 2
     false).1 (by decide)⟩

/-- C8: a data transfer command whose decoded TMTCR has slave not 0, a
format other than 10-compatible/10-core-dump, a nonzero skip count, or a
record count above 1, performs no read or write: it sets TMDIR to
TM_FAULT_A and emits a single empty exception transfer; otherwise a
TMBCR value of 0 is read as byte count 65536 before dispatch. -/
theorem C8_transfer_reject (nTCR nBCR bFunction : Nat) :
    ((nTCR &&& TMTCR_M_CMD_ADDR ≠ 0
      ∨ ((nTCR &&& TMTCR_M_FORMAT) >>> TMTCR_V_FORMAT ≠ TMAM_10_COMPATIBLE
         ∧ (nTCR &&& TMTCR_M_FORMAT) >>> TMTCR_V_FORMAT ≠ TMAM_10_CORE_DUMP)
      ∨ (nTCR &&& TMTCR_M_SKIP_COUNT) >>> TMTCR_V_SKIP_COUNT ≠ 0
      ∨ (nTCR &&& TMTCR_M_REC_COUNT) >>> TMTCR_V_REC_COUNT > 1) →
      DoTransferCommand nTCR nBCR bFunction
        = [setDataIntEv TMIC_TM_FAULT_A 0 0, Ev.emptyTransfer true])
    ∧ (nTCR &&& TMTCR_M_CMD_ADDR = 0 →
       ((nTCR &&& TMTCR_M_FORMAT) >>> TMTCR_V_FORMAT = TMAM_10_COMPATIBLE
         ∨ (nTCR &&& TMTCR_M_FORMAT) >>> TMTCR_V_FORMAT = TMAM_10_CORE_DUMP) →
       (nTCR &&& TMTCR_M_SKIP_COUNT) >>> TMTCR_V_SKIP_COUNT = 0 →
       (nTCR &&& TMTCR_M_REC_COUNT) >>> TMTCR_V_REC_COUNT ≤ 1 →
       (bFunction = TMCMD_RD_FWD →
          DoTransferCommand nTCR nBCR bFunction
            = [Ev.callDoRead false ((nTCR &&& TMTCR_M_FORMAT) >>> TMTCR_V_FORMAT)
                (if LOWORD nBCR = 0 then 65536 else LOWORD nBCR)])
       ∧ (bFunction = TMCMD_RD_REV →
          DoTransferCommand nTCR nBCR bFunction
            = [Ev.callDoRead true ((nTCR &&& TMTCR_M_FORMAT) >>> TMTCR_V_FORMAT)
                (if LOWORD nBCR = 0 then 65536 else LOWORD nBCR)])
       ∧ (bFunction = TMCMD_WRT_PE ∨ bFunction = TMCMD_WRT_GCR →
          DoTransferCommand nTCR nBCR bFunction
            = [Ev.callDoWrite ((nTCR &&& TMTCR_M_FORMAT) >>> TMTCR_V_FORMAT)
                (if LOWORD nBCR = 0 then 65536 else LOWORD nBCR)])) := by
  constructor
  · intro hrej
    rcases hrej with h | ⟨h2, h3⟩ | h | h
    · simp [DoTransferCommand, h]
    · by_cases hs : nTCR &&& TMTCR_M_CMD_ADDR = 0 <;>
        simp [DoTransferCommand, hs, h2, h3]
    · by_cases hs : nTCR &&& TMTCR_M_CMD_ADDR = 0 <;>
        by_cases hf2 : (nTCR &&& TMTCR_M_FORMAT) >>> TMTCR_V_FORMAT = TMAM_10_COMPATIBLE <;>
        by_cases hf3 : (nTCR &&& TMTCR_M_FORMAT) >>> TMTCR_V_FORMAT = TMAM_10_CORE_DUMP <;>
        simp [DoTransferCommand, hs, hf2, hf3, h]
    · by_cases hs : nTCR &&& TMTCR_M_CMD_ADDR = 0 <;>
        by_cases hf2 : (nTCR &&& TMTCR_M_FORMAT) >>> TMTCR_V_FORMAT = TMAM_10_COMPATIBLE <;>
        by_cases hf3 : (nTCR &&& TMTCR_M_FORMAT) >>> TMTCR_V_FORMAT = TMAM_10_CORE_DUMP <;>
        by_cases hk : (nTCR &&& TMTCR_M_SKIP_COUNT) >>> TMTCR_V_SKIP_COUNT = 0 <;>
        simp [DoTransferCommand, hs, hf2, hf3, hk, h, Nat.not_le_of_lt h]
  · intro hs hfmt hk hr
    have hrn : ¬ ((nTCR &&& TMTCR_M_REC_COUNT) >>> TMTCR_V_REC_COUNT > 1) := by omega
    refine ⟨?_, ?_, ?_⟩
    · intro hf
      rcases hfmt with h2 | h2 <;>
        simp [DoTransferCommand, hs, h2, hk, hrn, hf, TMCMD_RD_FWD, TMCMD_RD_REV,
          TMCMD_WRT_PE, TMCMD_WRT_GCR, TMCMD_RD_EXSNS]
    · intro hf
      rcases hfmt with h2 | h2 <;>
        simp [DoTransferCommand, hs, h2, hk, hrn, hf, TMCMD_RD_FWD, TMCMD_RD_REV,
          TMCMD_WRT_PE, TMCMD_WRT_GCR, TMCMD_RD_EXSNS]
    · rintro (hf | hf) <;> rcases hfmt with h2 | h2 <;>
        simp [DoTransferCommand, hs, h2, hk, hrn, hf, TMCMD_RD_FWD, TMCMD_RD_REV,
          TMCMD_WRT_PE, TMCMD_WRT_GCR, TMCMD_RD_EXSNS]

/-- C8 witness: slave 1 is rejected with TM_FAULT_A and one empty
exception transfer; a slave-0, 10-compatible, skip-0, record-count-1
request with TMBCR = 0 dispatches a read with byte count 65536. -/
theorem C8_transfer_reject_witness :
    DoTransferCommand 1 0 TMCMD_RD_FWD
      = [setDataIntEv TMIC_TM_FAULT_A 0 0, Ev.emptyTransfer true]
    ∧ DoTransferCommand 0o20004 0 TMCMD_RD_FWD
      = [Ev.callDoRead false TMAM_10_COMPATIBLE 65536] :=
  ⟨(C8_transfer_reject 1 0 TMCMD_RD_FWD).1 (Or.inl (by decide)),
   ((C8_transfer_reject 0o20004 0 TMCMD_RD_FWD).2 (by decide) (Or.inl (by decide))
     (by decide) (by decide)).1 rfl⟩

/-- C9: on a read-only drive no write command mutates the image.  The
disk WRITE path never reaches a WriteSector call and always spins the
drive down; the tape data WRITE fails its writable preflight with a
FILE_PROTECT data interrupt and one empty exception transfer, and the
motion flavoured write (write gap) fails it with a FILE_PROTECT motion
interrupt, neither touching the image. -/
theorem C9_readonly_write_protection :
    (∀ (lLBA : Nat) (fReadOk f18Bit : Bool) (alSector : List Nat) (fWriteOk : Bool)
        (lba2 : Nat) (d : List Nat),
      Ev.imgWriteSector lba2 d ∉ CDiskDrive_DoWrite lLBA fReadOk true f18Bit alSector fWriteOk
      ∧ Ev.spinDown ∈ CDiskDrive_DoWrite lLBA fReadOk true f18Bit alSector fWriteOk)
    ∧ (∀ (bFormat lByteCount : Nat) (fReadOk : Bool) (alData : List Nat),
        DoWrite true true bFormat lByteCount fReadOk alData
          = [setDataIntEv TMIC_FILE_PROTECT 0 0, Ev.emptyTransfer true])
    ∧ DoWriteGap true true
        = [clearMotionGOEv 0, setMotionIntEv TMIC_FILE_PROTECT 0 0] := by
  refine ⟨?_, ?_, ?_⟩
  · intro lLBA fReadOk f18Bit alSector fWriteOk lba2 d
    by_cases hl : lLBA = INVALID_SECTOR <;> cases fReadOk <;>
      simp [CDiskDrive_DoWrite, hl]
  · intro bFormat lByteCount fReadOk alData
    simp [DoWrite, CheckWritable, CheckOnline]
  · simp [DoWriteGap, CheckWritable, CheckOnline]

/-- C10: the operator SetReadOnly path never changes a tape drive.  The
base-class implementation returns early when the flag already equals the
argument and otherwise only logs, never assigning the member flag or any
register (tapes have no override, so this is the whole tape path); after
Attach the flag equals the image file read-only state, and stays so
through any number of SetReadOnly calls.  Only the disk-drive override
touches state: it rewrites the RPDS WLK bit (from the current member
flag). -/
theorem C10_tape_set_readonly_noop :
    (∀ (s : DriveState) (r : Bool), CBaseDrive_SetReadOnly s r = s)
    ∧ (∀ (s : DriveState) (imgRO r : Bool),
        (CBaseDrive_SetReadOnly (CBaseDrive_Attach s imgRO) r).fReadOnly = imgRO)
    ∧ (∀ (s : DriveState) (r : Bool),
        ((CDiskDrive_SetReadOnly s r).rpds &&& RPDS_WLK ≠ 0 ↔ s.fReadOnly = true)) := by
  have hbase : ∀ (s : DriveState) (r : Bool), CBaseDrive_SetReadOnly s r = s := by
    intro s r
    rw [CBaseDrive_SetReadOnly]
    split <;> rfl
  have hkey0 : ∀ x : Nat, x &&& (65535 ^^^ RPDS_WLK) &&& RPDS_WLK = 0 := by
    intro x
    rw [Nat.and_assoc, show (65535 ^^^ RPDS_WLK) &&& RPDS_WLK = 0 from by decide, Nat.and_zero]
  have hkey1 : ∀ x : Nat, (x ||| RPDS_WLK) &&& RPDS_WLK ≠ 0 := by
    intro x hzero
    have hbit : ((x ||| RPDS_WLK) &&& RPDS_WLK).testBit 11 = true := by
      rw [Nat.testBit_and, Nat.testBit_or, show Nat.testBit RPDS_WLK 11 = true from by decide]
      simp
    rw [hzero] at hbit
    simp at hbit
  refine ⟨hbase, ?_, ?_⟩
  · intro s imgRO r
    rw [hbase]
    rfl
  · intro s r
    rcases s with ⟨ro, onl, rpdsv⟩
    cases ro <;> simp [CDiskDrive_SetReadOnly, hbase, hkey0, hkey1]
